import Mathlib

/-!
Shallow embedding of the multi-provider agent invocation layer of the
module_creator repository (src/frontend/src/services/agents/).

Embedding conventions:
* JavaScript strings are Lean String; null/undefined-able string fields are
  Option String (none = null or undefined).
* JS truthiness tests on strings (if (!s)) are modelled as equality with "".
* The environment of a process() call (the outcome of the single fetch made
  by the method, the elapsed wall clock time, and the state of the agent
  instance before the call) is passed in explicitly; process() is then the
  total function of the source code's try/catch block.
* Thrown JS values are modelled as Option String: some m is an Error whose
  .message is m, none is a thrown non-Error value (the catch blocks turn
  the latter into the string "Unknown error occurred").
-/

/-! ### Data model (src/frontend/src/services/agents/types.ts) -/

/-- ModelConfig from types.ts. The numeric temperature field is unused by any
code under verification and is modelled as a rational. -/
structure ModelConfig where
  name : String
  provider : String
  model : String
  max_tokens : Nat
  temperature : Rat
  api_key : Option String := none
  base_url : Option String := none
deriving DecidableEq

/-- AgentContext from types.ts: one context fragment. -/
structure AgentContext where
  context_id : String
  context : String
  priority : Int
  is_active : Bool
deriving DecidableEq

/-- AgentConfig from types.ts: the agent profile handed to every agent. -/
structure AgentConfig where
  name : String
  description : String
  model : ModelConfig
  contexts : List AgentContext
  maxRetries : Nat
  timeout : Nat
deriving DecidableEq

/-- The options field of AgentRequest from types.ts (never read by the code
under verification). -/
structure RequestOptions where
  temperature : Option Rat := none
  max_tokens : Option Nat := none
  stop : Option (List String) := none
deriving DecidableEq

/-- AgentRequest from types.ts. -/
structure AgentRequest where
  prompt : String
  context : Option String := none
  options : Option RequestOptions := none
deriving DecidableEq

/-- AgentResponse from types.ts. The response field is Option String because
the local-server implementation copies data.response out of the parsed body
verbatim, and that field may be absent (undefined): none models undefined,
some s models the string s. The error field is none for null. -/
structure AgentResponse where
  success : Bool
  response : Option String
  processingTime : Nat
  error : Option String
deriving DecidableEq

/-- The runtime state field of BaseAgent (BaseAgent.ts line 5). -/
structure AgentState where
  status : String
  lastError : Option String := none
  lastResponse : Option AgentResponse := none
deriving DecidableEq

/-- Chat roles used by OpenAIAgent's message list. -/
inductive ChatRole where
  | system
  | user
deriving DecidableEq

/-- ChatMessage interface from OpenAIAgent.ts lines 4-7. -/
structure ChatMessage where
  role : ChatRole
  content : String
deriving DecidableEq

/-! ### Network outcomes

A process() call performs one fetch followed by one body parse. The
environment's behaviour on that single call is one of: the fetch promise
rejects (fetchThrown), the response arrives with a non-ok status
(httpError), the body fails to parse (jsonThrown), or a parsed body is
produced (ok). The ok payload is the field the code extracts from the
parsed body, as an Option because the field may be absent. -/

/-- Outcome of the one fetch made by OpenAIAgent.process; the ok payload is
completion.choices[0]?.message?.content after optional chaining. -/
inductive OpenAIOutcome where
  | fetchThrown (msg : Option String)
  | httpError (statusText : String)
  | jsonThrown (msg : Option String)
  | ok (content : Option String)
deriving DecidableEq

/-- Outcome of the one fetch made by OllamaAgent.process; the ok payload is
data.response of the parsed body. -/
inductive OllamaOutcome where
  | fetchThrown (msg : Option String)
  | httpError (statusText : String)
  | jsonThrown (msg : Option String)
  | ok (response : Option String)
deriving DecidableEq

/-- The catch-block translation of a thrown value into a message:
error instanceof Error ? error.message : 'Unknown error occurred'. -/
def errMsgOf : Option String → String
  | some m => m
  | none => "Unknown error occurred"

/-- The failure envelope built by every catch block of the two process()
implementations (OpenAIAgent.ts lines 60-66 and 144-150). -/
def failureResponse (msg : String) : AgentResponse :=
  { success := false, response := some "", processingTime := 0, error := some msg }

/-! ### OpenAIAgent (OpenAIAgent.ts lines 9-105) -/

/-- OpenAIAgent.validateRequest (OpenAIAgent.ts lines 94-104): returns the
message of the Error it throws, or none when it returns true. The apiKey
argument is the field set by the constructor from config.model.api_key. -/
def OpenAIAgent.validateRequest (apiKey : String) (req : AgentRequest) : Option String :=
  if req.prompt = "" then some "Prompt is required"
  else if apiKey = "" then some "OpenAI API key is required"
  else none

/-- OpenAIAgent.buildMessages (OpenAIAgent.ts lines 71-92): one system
message joining every fragment of config.contexts (no filtering on
is_active, no sorting) with a newline, then an optional system message for
request.context when that string is truthy, then the user message. -/
def OpenAIAgent.buildMessages (cfg : AgentConfig) (req : AgentRequest) : List ChatMessage :=
  { role := ChatRole.system,
    content := String.intercalate "\n" (cfg.contexts.map (fun c => c.context)) }
  :: ((match req.context with
      | some c => if c = "" then [] else [{ role := ChatRole.system, content := c }]
      | none => ([] : List ChatMessage))
    ++ [{ role := ChatRole.user, content := req.prompt }])

/-- The observable effect of one OpenAIAgent.process call: the returned
envelope, whether the fetch was issued, the message list sent when it was,
and the value of this.state after the call. -/
structure OpenAIRun where
  result : AgentResponse
  networkCalled : Bool
  sentMessages : Option (List ChatMessage)
  stateAfter : AgentState
deriving DecidableEq

/-- OpenAIAgent.process (OpenAIAgent.ts lines 21-69). The body is one
try/catch: validateRequest runs first (its throw is caught and turned into
the failure envelope before any fetch); then buildMessages; then the single
fetch whose outcome is the parameter. No statement of the method writes
this.state, so stateAfter is the incoming state unchanged, and no call to
BaseAgent.retry appears, so exactly one outcome is consumed. -/
def OpenAIAgent.process (cfg : AgentConfig) (apiKey : String) (req : AgentRequest)
    (outcome : OpenAIOutcome) (elapsed : Nat) (s : AgentState) : OpenAIRun :=
  match OpenAIAgent.validateRequest apiKey req with
  | some m =>
    { result := failureResponse m, networkCalled := false, sentMessages := none, stateAfter := s }
  | none =>
    let messages := OpenAIAgent.buildMessages cfg req
    match outcome with
    | OpenAIOutcome.fetchThrown msg =>
      { result := failureResponse (errMsgOf msg), networkCalled := true,
        sentMessages := some messages, stateAfter := s }
    | OpenAIOutcome.httpError st =>
      { result := failureResponse ("OpenAI API error: " ++ st), networkCalled := true,
        sentMessages := some messages, stateAfter := s }
    | OpenAIOutcome.jsonThrown msg =>
      { result := failureResponse (errMsgOf msg), networkCalled := true,
        sentMessages := some messages, stateAfter := s }
    | OpenAIOutcome.ok content =>
      { result := { success := true, response := some (content.getD ""),
                    processingTime := elapsed, error := none },
        networkCalled := true, sentMessages := some messages, stateAfter := s }

/-- OpenAIAgent.process over a sequence of would-be attempt outcomes: the
method contains a single fetch and never calls BaseAgent.retry, so only the
first element of the sequence is consumed. -/
def OpenAIAgent.processSeq (cfg : AgentConfig) (apiKey : String) (req : AgentRequest)
    (attempts : Nat → OpenAIOutcome) (elapsed : Nat) (s : AgentState) : OpenAIRun :=
  OpenAIAgent.process cfg apiKey req (attempts 0) elapsed s

/-! ### OllamaAgent (OpenAIAgent.ts lines 109-191) -/

/-- The comparison used by buildPrompt's sort callback
(a, b) => a.priority - b.priority: a sorts no later than b. -/
def ctxLe (a b : AgentContext) : Prop := a.priority ≤ b.priority

instance : DecidableRel ctxLe := fun a b => inferInstanceAs (Decidable (a.priority ≤ b.priority))

instance : IsTotal AgentContext ctxLe := ⟨fun a b => Int.le_total a.priority b.priority⟩

instance : IsTrans AgentContext ctxLe := ⟨fun _ _ _ h1 h2 => le_trans h1 h2⟩

/-- The stable ascending-priority sort performed by
[...this.config.contexts].sort((a, b) => a.priority - b.priority)
(OpenAIAgent.ts line 164). JavaScript Array.prototype.sort is stable, as is
insertion sort with a non-strict comparison. -/
def sortByPriority (l : List AgentContext) : List AgentContext :=
  List.insertionSort ctxLe l

/-- The sorted-then-filtered fragment list traversed by buildPrompt
(OpenAIAgent.ts lines 164-171): sort by priority, keep active fragments. -/
def sortedActive (l : List AgentContext) : List AgentContext :=
  (sortByPriority l).filter (fun c => c.is_active)

/-- OllamaAgent.buildPrompt (OpenAIAgent.ts lines 160-177): append each
active fragment's content followed by a blank line, in stable ascending
priority order, then append "User: " ++ prompt followed by a blank line.
The request's optional context field is not read. -/
def OllamaAgent.buildPrompt (cfg : AgentConfig) (req : AgentRequest) : String :=
  String.join ((sortedActive cfg.contexts).map (fun c => c.context ++ "\n\n"))
    ++ ("User: " ++ req.prompt ++ "\n\n")

/-- OllamaAgent.validateRequest (OpenAIAgent.ts lines 179-190). It is
declared on the class but OllamaAgent.process never invokes it. -/
def OllamaAgent.validateRequest (cfg : AgentConfig) (req : AgentRequest) : Option String :=
  if req.prompt = "" then some "Prompt is required"
  else
    match cfg.model.base_url with
    | none => some "Ollama base URL is required"
    | some u => if u = "" then some "Ollama base URL is required" else none

/-- The observable effect of one OllamaAgent.process call. -/
structure OllamaRun where
  result : AgentResponse
  networkCalled : Bool
  sentPrompt : Option String
  stateAfter : AgentState
deriving DecidableEq

/-- OllamaAgent.process (OpenAIAgent.ts lines 117-158). The try block calls
buildPrompt and then fetch directly: validateRequest is never invoked, the
fetch is always issued, no statement writes this.state, and no call to
BaseAgent.retry appears. On ok outcome the envelope copies data.response
verbatim (possibly undefined). -/
def OllamaAgent.process (cfg : AgentConfig) (req : AgentRequest)
    (outcome : OllamaOutcome) (elapsed : Nat) (s : AgentState) : OllamaRun :=
  let prompt := OllamaAgent.buildPrompt cfg req
  match outcome with
  | OllamaOutcome.fetchThrown msg =>
    { result := failureResponse (errMsgOf msg), networkCalled := true,
      sentPrompt := some prompt, stateAfter := s }
  | OllamaOutcome.httpError st =>
    { result := failureResponse ("Ollama API error: " ++ st), networkCalled := true,
      sentPrompt := some prompt, stateAfter := s }
  | OllamaOutcome.jsonThrown msg =>
    { result := failureResponse (errMsgOf msg), networkCalled := true,
      sentPrompt := some prompt, stateAfter := s }
  | OllamaOutcome.ok resp =>
    { result := { success := true, response := resp, processingTime := elapsed, error := none },
      networkCalled := true, sentPrompt := some prompt, stateAfter := s }

/-- OllamaAgent.process over a sequence of would-be attempt outcomes; only
the first is consumed (single fetch, no retry call site). -/
def OllamaAgent.processSeq (cfg : AgentConfig) (req : AgentRequest)
    (attempts : Nat → OllamaOutcome) (elapsed : Nat) (s : AgentState) : OllamaRun :=
  OllamaAgent.process cfg req (attempts 0) elapsed s

/-! ### BaseAgent helpers (BaseAgent.ts) -/

/-- The state installed by the BaseAgent constructor (BaseAgent.ts line 9):
this.state = with status 'idle' and no other fields. -/
def BaseAgent.initState : AgentState := { status := "idle" }

/-- BaseAgent.getState (BaseAgent.ts lines 39-41): returns a spread copy of
this.state; as a value it is the state itself. -/
def BaseAgent.getState (s : AgentState) : AgentState := s

/-- Trace of one BaseAgent.retry call (BaseAgent.ts lines 51-69): the value
returned or the thrown value (none models throwing the null initializer
when maxRetries is 0), the list of backoff delays awaited in order, and how
many times the operation was invoked. The operation is modelled as a map
from attempt index to that attempt's outcome. -/
structure RetryTrace (α : Type) where
  result : Except (Option String) α
  delays : List Nat
  calls : Nat

/-- The loop of BaseAgent.retry: attempt index i, remaining iterations, and
the current lastError. On failure with more iterations left it awaits
1000 * (i + 1) milliseconds before the next attempt. -/
def retryGo (op : Nat → Except String α) : Nat → Nat → Option String → RetryTrace α
  | _, 0, lastError => { result := Except.error lastError, delays := [], calls := 0 }
  | i, r + 1, _ =>
    match op i with
    | Except.ok v => { result := Except.ok v, delays := [], calls := 1 }
    | Except.error e =>
      if r = 0 then { result := Except.error (some e), delays := [], calls := 1 }
      else
        let rest := retryGo op (i + 1) r (some e)
        { result := rest.result, delays := 1000 * (i + 1) :: rest.delays,
          calls := rest.calls + 1 }

/-- BaseAgent.retry (BaseAgent.ts lines 51-69): run the loop from attempt 0
with lastError initialized to null. -/
def BaseAgent.retry (op : Nat → Except String α) (maxRetries : Nat) : RetryTrace α :=
  retryGo op 0 maxRetries none

/-- The single network attempt of OpenAIAgent.process viewed as a retryable
operation (what the code would pass to BaseAgent.retry if it used it):
each failure outcome is the thrown error message, ok yields the content. -/
def openaiNetOp : OpenAIOutcome → Except String (Option String)
  | OpenAIOutcome.fetchThrown msg => Except.error (errMsgOf msg)
  | OpenAIOutcome.httpError st => Except.error ("OpenAI API error: " ++ st)
  | OpenAIOutcome.jsonThrown msg => Except.error (errMsgOf msg)
  | OpenAIOutcome.ok content => Except.ok content

/-! ### Agent factory (AgentFactory.ts) -/

/-- The two concrete classes a factory call can instantiate. -/
inductive AgentKind where
  | openai
  | ollama
deriving DecidableEq

/-- A constructed agent instance: which class it is, plus the config stored
by the BaseAgent constructor (BaseAgent.ts line 8). -/
structure Agent where
  kind : AgentKind
  config : AgentConfig
deriving DecidableEq

/-- BaseAgent.getConfig (BaseAgent.ts lines 43-45): returns a spread copy of
this.config; as a value it is the stored config itself. -/
def BaseAgent.getConfig (a : Agent) : AgentConfig := a.config

/-- AgentFactory.createAgent (AgentFactory.ts lines 11-20) over the runtime
string value of the tag. The openai branch runs the OpenAIAgent constructor,
which throws when config.model.api_key is falsy (OpenAIAgent.ts lines
15-17); the ollama branch never throws; any other tag hits the default
branch and throws naming the tag. -/
def AgentFactory.createAgent (tag : String) (config : AgentConfig) : Except String Agent :=
  if tag = "openai" then
    match config.model.api_key with
    | some k =>
      if k = "" then Except.error "OpenAI API key is required"
      else Except.ok { kind := AgentKind.openai, config := config }
    | none => Except.error "OpenAI API key is required"
  else if tag = "ollama" then Except.ok { kind := AgentKind.ollama, config := config }
  else Except.error ("Unsupported agent type: " ++ tag)

/-! ### Claim C4: the retry/backoff policy of BaseAgent.retry -/

/-- Helper: the retry loop starting at attempt i succeeds like the claim says. -/
lemma retryGo_ok {α : Type} (op : Nat → Except String α) (v : α) (e : Nat → String) :
    ∀ (k i fuel : Nat) (le : Option String), k < fuel →
      (∀ j, j < k → op (i + j) = Except.error (e (i + j))) →
      op (i + k) = Except.ok v →
      retryGo op i fuel le =
        { result := Except.ok v, delays := (List.range k).map (fun j => 1000 * (i + j + 1)),
          calls := k + 1 } := by
  intro k
  induction k with
  | zero =>
    intro i fuel le hk hfail hok
    match fuel, hk with
    | f + 1, _ =>
      simp only [retryGo]
      rw [show i + 0 = i from rfl] at hok
      rw [hok]
      simp
  | succ k ih =>
    intro i fuel le hk hfail hok
    match fuel, hk with
    | f + 1, hk =>
      have hf : k < f := by omega
      have h0 : op i = Except.error (e i) := by
        have := hfail 0 (by omega)
        simpa using this
      simp only [retryGo]
      rw [h0]
      have hfne : ¬ f = 0 := by omega
      simp only [hfne, if_false]
      have hrest := ih (i + 1) f (some (e i)) hf
        (fun j hj => by
          have := hfail (j + 1) (by omega)
          have harith : i + (j + 1) = i + 1 + j := by omega
          rwa [harith] at this)
        (by
          have harith : i + (k + 1) = i + 1 + k := by omega
          rwa [harith] at hok)
      rw [hrest]
      simp only [RetryTrace.mk.injEq, and_true, true_and]
      rw [List.range_succ_eq_map, List.map_cons, List.map_map]
      refine congrArg₂ List.cons ?_ ?_
      · norm_num
      · exact (List.map_congr_left (fun a _ => by simp only [Function.comp_apply]; omega)).symm

/-- Helper: the retry loop on an always-failing operation. -/
lemma retryGo_allFail {α : Type} (op : Nat → Except String α) (e : Nat → String)
    (hfail : ∀ j, op j = Except.error (e j)) :
    ∀ (s i : Nat) (le : Option String),
      retryGo op i (s + 1) le =
        { result := Except.error (some (e (i + s))),
          delays := (List.range s).map (fun j => 1000 * (i + j + 1)), calls := s + 1 } := by
  intro s
  induction s with
  | zero =>
    intro i le
    simp only [retryGo, hfail i]
    simp
  | succ s ih =>
    intro i le
    have key : retryGo op i (s + 1 + 1) le =
        { result := (retryGo op (i + 1) (s + 1) (some (e i))).result,
          delays := 1000 * (i + 1) :: (retryGo op (i + 1) (s + 1) (some (e i))).delays,
          calls := (retryGo op (i + 1) (s + 1) (some (e i))).calls + 1 } := by
      generalize hgen : s + 1 = t
      have ht : ¬ t = 0 := by omega
      simp only [retryGo, hfail i, ht, if_false]
    rw [key, ih (i + 1) (some (e i))]
    simp only [RetryTrace.mk.injEq]
    refine ⟨by rw [show i + 1 + s = i + (s + 1) from by omega], ?_, trivial⟩
    rw [List.range_succ_eq_map, List.map_cons, List.map_map]
    refine congrArg₂ List.cons ?_ ?_
    · norm_num
    · exact (List.map_congr_left (fun a _ => by simp only [Function.comp_apply]; omega)).symm

/-- Claim C4: for an operation failing its first k attempts and succeeding on
attempt k+1 with k < maxRetries, retry returns the success value after exactly
the k delays 1000, 2000, ..., 1000k ms; for an always-failing operation (and
at least one permitted attempt), retry invokes the operation exactly
maxRetries times and then raises the last error. -/
theorem c4_retry_policy {α : Type} (op : Nat → Except String α) (maxRetries k : Nat)
    (v : α) (e : Nat → String) :
    (k < maxRetries → (∀ j, j < k → op j = Except.error (e j)) → op k = Except.ok v →
      BaseAgent.retry op maxRetries =
        { result := Except.ok v, delays := (List.range k).map (fun j => 1000 * (j + 1)),
          calls := k + 1 })
    ∧ ((∀ j, op j = Except.error (e j)) → 1 ≤ maxRetries →
      BaseAgent.retry op maxRetries =
        { result := Except.error (some (e (maxRetries - 1))),
          delays := (List.range (maxRetries - 1)).map (fun j => 1000 * (j + 1)),
          calls := maxRetries }) := by
  constructor
  · intro hk hfail hok
    have h := retryGo_ok op v e k 0 maxRetries none hk
      (fun j hj => by simpa using hfail j hj) (by simpa using hok)
    rw [BaseAgent.retry, h]
    simp only [RetryTrace.mk.injEq, true_and, and_true]
    exact List.map_congr_left (fun a _ => by omega)
  · intro hfail h1
    match maxRetries, h1 with
    | s + 1, _ =>
      have h := retryGo_allFail op e hfail s 0 none
      rw [BaseAgent.retry, h]
      simp only [RetryTrace.mk.injEq, and_true]
      refine ⟨by norm_num, ?_⟩
      exact List.map_congr_left (fun a _ => by omega)

/-- Concrete operation failing only on attempt 0. -/
def opC4 : Nat → Except String Nat := fun j => if j = 0 then Except.error "boom" else Except.ok 42

/-- Concrete operation failing on every attempt. -/
def opC4f : Nat → Except String Nat := fun _ => Except.error "always"

/-- Witness for C4 at concrete operations and retry budgets. -/
theorem c4_retry_policy_witness :
    BaseAgent.retry opC4 3 = { result := Except.ok 42, delays := [1000], calls := 2 }
    ∧ BaseAgent.retry opC4f 2 =
        { result := Except.error (some "always"), delays := [1000], calls := 2 } := by
  constructor
  · have h := (c4_retry_policy opC4 3 1 42 (fun _ => "boom")).1 (by omega)
      (fun j hj => by
        have : j = 0 := by omega
        subst this
        rfl)
      rfl
    simpa using h
  · have h := (c4_retry_policy opC4f 2 0 0 (fun _ => "always")).2 (fun j => rfl) (by omega)
    simpa using h

/-! ### Concrete fixtures used by counterexamples and witnesses -/

/-- A concrete model configuration (both a credential and a base address are
present, so either constructor accepts it). -/
def mdlFix : ModelConfig :=
  { name := "m", provider := "openai", model := "gpt-4", max_tokens := 256,
    temperature := 0, api_key := some "sk-test", base_url := some "http://localhost:11434" }

/-- A concrete inactive context fragment. -/
def fragInactive : AgentContext :=
  { context_id := "f0", context := "INACTIVE", priority := 0, is_active := false }

/-- A concrete active context fragment. -/
def fragHelpful : AgentContext :=
  { context_id := "f1", context := "You are a helpful assistant", priority := 1,
    is_active := true }

/-- A profile whose only context fragment is inactive. -/
def cfgInactiveOnly : AgentConfig :=
  { name := "a", description := "", model := mdlFix, contexts := [fragInactive],
    maxRetries := 3, timeout := 30000 }

/-- A profile with one active and one inactive fragment (the happy-path
scenario profile of the spec). -/
def cfgScenario : AgentConfig :=
  { name := "a", description := "", model := mdlFix,
    contexts := [fragInactive, fragHelpful], maxRetries := 3, timeout := 30000 }

/-- A profile with no context fragments at all. -/
def cfgEmptyCtx : AgentConfig :=
  { name := "a", description := "", model := mdlFix, contexts := [],
    maxRetries := 3, timeout := 30000 }

/-! ### Claim C1: which fragments reach the provider payload -/

/-- Helper for stability: filtering an ordered insertion to one priority
value either prepends the inserted fragment (when it has that priority) or
leaves the filtered list unchanged, because insertion only passes over
strictly smaller priorities. -/
lemma filter_priority_orderedInsert (p : Int) (x : AgentContext) :
    ∀ m : List AgentContext,
      (List.orderedInsert ctxLe x m).filter (fun c => c.priority == p) =
        if x.priority == p then x :: m.filter (fun c => c.priority == p)
        else m.filter (fun c => c.priority == p) := by
  intro m
  induction m with
  | nil =>
    simp [List.orderedInsert, List.filter]
    split <;> simp_all
  | cons y ys ih =>
    by_cases hxy : ctxLe x y
    · rw [List.orderedInsert_of_le _ _ hxy]
      by_cases hxp : x.priority = p
      · simp [List.filter, hxp]
      · simp only [List.filter]
        have : (x.priority == p) = false := by simp [hxp]
        simp [this]
    · have hlt : y.priority < x.priority := by
        simp only [ctxLe, not_le] at hxy
        exact hxy
      simp only [List.orderedInsert, if_neg hxy]
      by_cases hxp : x.priority = p
      · have hyp : ¬ y.priority = p := by omega
        simp only [List.filter]
        have hy : (y.priority == p) = false := by simp [hyp]
        have hx : (x.priority == p) = true := by simp [hxp]
        simp only [hy, hx, if_pos rfl]
        rw [ih]
        simp [hx]
      · have hx : (x.priority == p) = false := by simp [hxp]
        simp only [List.filter, hx]
        rw [ih]
        simp [hx]

/-- Helper: the priority sort is stable — the sublist of fragments carrying
any fixed priority is exactly the same, in the same order, before and after
sorting (ties are broken by original insertion order). -/
lemma filter_priority_sortByPriority (p : Int) :
    ∀ l : List AgentContext,
      (sortByPriority l).filter (fun c => c.priority == p) =
        l.filter (fun c => c.priority == p) := by
  intro l
  induction l with
  | nil => rfl
  | cons x xs ih =>
    simp only [sortByPriority, List.insertionSort] at ih ⊢
    rw [filter_priority_orderedInsert]
    cases hx : (x.priority == p) <;> simp [List.filter_cons, hx, ih]

/-- Claim C1 counterexample: with a profile whose single fragment is
inactive (N = 0 active, M = 1 inactive), the hosted provider's assembled
message list still carries the inactive fragment's content as its system
unit, so the payload is not limited to active fragments as claimed. -/
theorem c1_counterexample :
    cfgInactiveOnly.contexts.filter (fun c => c.is_active) = []
    ∧ OpenAIAgent.buildMessages cfgInactiveOnly { prompt := "p" } =
        [{ role := ChatRole.system, content := "INACTIVE" },
         { role := ChatRole.user, content := "p" }] :=
  ⟨rfl, rfl⟩

/-- Claim C1 amended: the local-server provider's prompt units are exactly
the active fragments, in ascending priority with ties in insertion order
(permutation of the active sublist, pairwise sorted, stable), while the
hosted provider's single system unit concatenates every fragment of the
profile — inactive ones included — joined by a newline in insertion order. -/
theorem c1_payload_assembly (cfg : AgentConfig) (req : AgentRequest) (p : Int) :
    (sortedActive cfg.contexts).Perm (cfg.contexts.filter (fun c => c.is_active))
    ∧ List.Pairwise ctxLe (sortedActive cfg.contexts)
    ∧ (sortByPriority cfg.contexts).filter (fun c => c.priority == p) =
        cfg.contexts.filter (fun c => c.priority == p)
    ∧ OllamaAgent.buildPrompt cfg req =
        String.join ((sortedActive cfg.contexts).map (fun c => c.context ++ "\n\n"))
          ++ ("User: " ++ req.prompt ++ "\n\n")
    ∧ (OpenAIAgent.buildMessages cfg req).head? =
        some { role := ChatRole.system,
               content := String.intercalate "\n" (cfg.contexts.map (fun c => c.context)) } :=
  ⟨(List.perm_insertionSort ctxLe _).filter _,
    List.Pairwise.sublist (List.filter_sublist _) (List.sorted_insertionSort ctxLe _),
    filter_priority_sortByPriority p _, rfl, rfl⟩

/-! ### Claim C3: process never throws and reports failures in the envelope -/

/-- Claim C3: for every request, environment outcome and incoming state,
process() of both providers is a total function into an InvocationResult
(it is defined as such over every outcome constructor), and the result is
either a success with a null error or a failure whose error field carries a
message. -/
theorem c3_process_never_throws (cfg : AgentConfig) (apiKey : String) (req : AgentRequest)
    (o : OpenAIOutcome) (elapsed : Nat) (s : AgentState) (cfg2 : AgentConfig)
    (req2 : AgentRequest) (o2 : OllamaOutcome) (elapsed2 : Nat) (s2 : AgentState) :
    (((OpenAIAgent.process cfg apiKey req o elapsed s).result.success = true
        ∧ (OpenAIAgent.process cfg apiKey req o elapsed s).result.error = none)
      ∨ ((OpenAIAgent.process cfg apiKey req o elapsed s).result.success = false
        ∧ ∃ m, (OpenAIAgent.process cfg apiKey req o elapsed s).result.error = some m))
    ∧ (((OllamaAgent.process cfg2 req2 o2 elapsed2 s2).result.success = true
        ∧ (OllamaAgent.process cfg2 req2 o2 elapsed2 s2).result.error = none)
      ∨ ((OllamaAgent.process cfg2 req2 o2 elapsed2 s2).result.success = false
        ∧ ∃ m, (OllamaAgent.process cfg2 req2 o2 elapsed2 s2).result.error = some m)) := by
  constructor
  · rcases hv : OpenAIAgent.validateRequest apiKey req with _ | m
    · cases o <;> simp [OpenAIAgent.process, hv, failureResponse]
    · simp [OpenAIAgent.process, hv, failureResponse]
  · cases o2 <;> simp [OllamaAgent.process, failureResponse]

/-! ### Claim C5: the runtime state machine -/

/-- Claim C5 counterexample: a process() call that finishes successfully
leaves the runtime state exactly as constructed, so getState() after the
finished call still reports idle instead of completed. -/
theorem c5_counterexample :
    (OpenAIAgent.process cfgScenario "sk-test" { prompt := "Say hi" }
        (OpenAIOutcome.ok (some "Hello!")) 12 BaseAgent.initState).result.success = true
    ∧ (BaseAgent.getState ((OpenAIAgent.process cfgScenario "sk-test" { prompt := "Say hi" }
        (OpenAIOutcome.ok (some "Hello!")) 12 BaseAgent.initState).stateAfter)).status
      = "idle" :=
  ⟨rfl, rfl⟩

/-- Claim C5 amended: the runtime status is set to idle by the constructor
and is never updated again — neither provider's process() contains a write
to this.state, so after any call (any outcome, success or failure) getState
reports the same state the call started with. -/
theorem c5_state_never_updated (cfg : AgentConfig) (apiKey : String) (req : AgentRequest)
    (o : OpenAIOutcome) (elapsed : Nat) (s : AgentState) (cfg2 : AgentConfig)
    (req2 : AgentRequest) (o2 : OllamaOutcome) (elapsed2 : Nat) (s2 : AgentState) :
    BaseAgent.initState.status = "idle"
    ∧ (OpenAIAgent.process cfg apiKey req o elapsed s).stateAfter = s
    ∧ (OllamaAgent.process cfg2 req2 o2 elapsed2 s2).stateAfter = s2
    ∧ BaseAgent.getState s = s := by
  refine ⟨rfl, ?_, ?_, rfl⟩
  · rcases hv : OpenAIAgent.validateRequest apiKey req with _ | m
    · cases o <;> simp [OpenAIAgent.process, hv]
    · simp [OpenAIAgent.process, hv]
  · cases o2 <;> simp [OllamaAgent.process]

/-! ### Claim C2: whether process runs its network call under the retry policy -/

/-- Attempt outcomes whose first network call fails transiently and whose
second (and every later) attempt would succeed. -/
def attemptsFailThenOk : Nat → OpenAIOutcome :=
  fun j => if j = 0 then OpenAIOutcome.fetchThrown (some "ECONNRESET")
           else OpenAIOutcome.ok (some "recovered")

/-- Claim C2 counterexample: with a transient first failure that the retry
policy would recover from well within the profile's maxRetries of 3
(BaseAgent.retry on the same attempts succeeds after 2 calls), process()
still returns the failure envelope from the single attempt it makes. -/
theorem c2_counterexample :
    (OpenAIAgent.processSeq cfgScenario "sk-test" { prompt := "Say hi" } attemptsFailThenOk 5
        BaseAgent.initState).result =
      { success := false, response := some "", processingTime := 0,
        error := some "ECONNRESET" }
    ∧ (BaseAgent.retry (fun j => openaiNetOp (attemptsFailThenOk j))
        cfgScenario.maxRetries).result = Except.ok (some "recovered")
    ∧ (BaseAgent.retry (fun j => openaiNetOp (attemptsFailThenOk j))
        cfgScenario.maxRetries).calls = 2 :=
  ⟨rfl, rfl, rfl⟩

/-- Claim C2 amended: process() performs its network call exactly once and
never under BaseAgent.retry — the run depends only on the first attempt's
outcome, and a first-attempt failure immediately produces the failure
envelope, for both providers. -/
theorem c2_no_retry_in_process (cfg : AgentConfig) (apiKey : String) (req : AgentRequest)
    (a b : Nat → OpenAIOutcome) (elapsed : Nat) (s : AgentState) (m : String)
    (cfg2 : AgentConfig) (req2 : AgentRequest) (a2 b2 : Nat → OllamaOutcome)
    (elapsed2 : Nat) (s2 : AgentState) (m2 : String) :
    (a 0 = b 0 →
      OpenAIAgent.processSeq cfg apiKey req a elapsed s =
        OpenAIAgent.processSeq cfg apiKey req b elapsed s)
    ∧ (OpenAIAgent.validateRequest apiKey req = none →
        a 0 = OpenAIOutcome.fetchThrown (some m) →
        (OpenAIAgent.processSeq cfg apiKey req a elapsed s).result = failureResponse m)
    ∧ (a2 0 = b2 0 →
      OllamaAgent.processSeq cfg2 req2 a2 elapsed2 s2 =
        OllamaAgent.processSeq cfg2 req2 b2 elapsed2 s2)
    ∧ (a2 0 = OllamaOutcome.fetchThrown (some m2) →
        (OllamaAgent.processSeq cfg2 req2 a2 elapsed2 s2).result = failureResponse m2) := by
  refine ⟨?_, ?_, ?_, ?_⟩
  · intro h
    simp [OpenAIAgent.processSeq, h]
  · intro hv h
    simp [OpenAIAgent.processSeq, OpenAIAgent.process, hv, h, errMsgOf]
  · intro h
    simp [OllamaAgent.processSeq, h]
  · intro h
    simp [OllamaAgent.processSeq, OllamaAgent.process, h, errMsgOf]

/-- Witness for the amended C2 at concrete attempt sequences. -/
theorem c2_no_retry_in_process_witness :
    OpenAIAgent.processSeq cfgScenario "sk-test" { prompt := "Say hi" } attemptsFailThenOk 5
        BaseAgent.initState =
      OpenAIAgent.processSeq cfgScenario "sk-test" { prompt := "Say hi" }
        (fun _ => OpenAIOutcome.fetchThrown (some "ECONNRESET")) 5 BaseAgent.initState
    ∧ (OpenAIAgent.processSeq cfgScenario "sk-test" { prompt := "Say hi" } attemptsFailThenOk 5
        BaseAgent.initState).result = failureResponse "ECONNRESET"
    ∧ OllamaAgent.processSeq cfgScenario { prompt := "Say hi" }
        (fun _ => OllamaOutcome.fetchThrown (some "refused")) 5 BaseAgent.initState =
      OllamaAgent.processSeq cfgScenario { prompt := "Say hi" }
        (fun _ => OllamaOutcome.fetchThrown (some "refused")) 5 BaseAgent.initState
    ∧ (OllamaAgent.processSeq cfgScenario { prompt := "Say hi" }
        (fun _ => OllamaOutcome.fetchThrown (some "refused")) 5 BaseAgent.initState).result =
      failureResponse "refused" := by
  have h := c2_no_retry_in_process cfgScenario "sk-test" { prompt := "Say hi" }
    attemptsFailThenOk (fun _ => OpenAIOutcome.fetchThrown (some "ECONNRESET")) 5
    BaseAgent.initState "ECONNRESET" cfgScenario { prompt := "Say hi" }
    (fun _ => OllamaOutcome.fetchThrown (some "refused"))
    (fun _ => OllamaOutcome.fetchThrown (some "refused")) 5 BaseAgent.initState "refused"
  exact ⟨h.1 rfl, h.2.1 rfl rfl, h.2.2.1 rfl, h.2.2.2 rfl⟩

/-! ### Claim C6: is validation performed before the network attempt -/

/-- Claim C6 counterexample: the local-server provider processes a request
with an empty prompt by issuing the network call anyway and returning a
success envelope — even though its own validateRequest would have rejected
that request — so validation does not precede the network attempt there. -/
theorem c6_counterexample :
    (OllamaAgent.process cfgScenario { prompt := "" } (OllamaOutcome.ok (some "resp")) 7
        BaseAgent.initState).networkCalled = true
    ∧ (OllamaAgent.process cfgScenario { prompt := "" } (OllamaOutcome.ok (some "resp")) 7
        BaseAgent.initState).result.success = true
    ∧ OllamaAgent.validateRequest cfgScenario { prompt := "" } = some "Prompt is required" :=
  ⟨rfl, rfl, rfl⟩

/-- Claim C6 amended: only the hosted provider validates before the network
attempt — an empty prompt yields the validation failure without the fetch —
while the local-server provider never invokes validateRequest from process()
and issues its fetch on every call, empty prompt included. -/
theorem c6_validation_before_network (cfg : AgentConfig) (apiKey : String) (req : AgentRequest)
    (o : OpenAIOutcome) (elapsed : Nat) (s : AgentState) (cfg2 : AgentConfig)
    (req2 : AgentRequest) (o2 : OllamaOutcome) (elapsed2 : Nat) (s2 : AgentState) :
    (req.prompt = "" →
      OpenAIAgent.process cfg apiKey req o elapsed s =
        { result := failureResponse "Prompt is required", networkCalled := false,
          sentMessages := none, stateAfter := s })
    ∧ (OllamaAgent.process cfg2 req2 o2 elapsed2 s2).networkCalled = true := by
  constructor
  · intro hp
    simp [OpenAIAgent.process, OpenAIAgent.validateRequest, hp]
  · cases o2 <;> simp [OllamaAgent.process]

/-- Witness for the amended C6 at an empty-prompt request. -/
theorem c6_validation_before_network_witness :
    OpenAIAgent.process cfgScenario "sk-test" { prompt := "" } (OpenAIOutcome.ok (some "x")) 3
        BaseAgent.initState =
      { result := failureResponse "Prompt is required", networkCalled := false,
        sentMessages := none, stateAfter := BaseAgent.initState }
    ∧ (OllamaAgent.process cfgScenario { prompt := "" } (OllamaOutcome.ok (some "x")) 3
        BaseAgent.initState).networkCalled = true := by
  have h := c6_validation_before_network cfgScenario "sk-test" { prompt := "" }
    (OpenAIOutcome.ok (some "x")) 3 BaseAgent.initState cfgScenario { prompt := "" }
    (OllamaOutcome.ok (some "x")) 3 BaseAgent.initState
  exact ⟨h.1 rfl, h.2⟩

/-! ### Claim C7: placement of the request's extra context -/

/-- Claim C7 counterexample: the local-server provider ignores the request's
extra context entirely — the built prompt with extra context EXTRA equals
the one built without any extra context, so no unit carries it. -/
theorem c7_counterexample :
    OllamaAgent.buildPrompt cfgEmptyCtx { prompt := "p", context := some "EXTRA" } =
      OllamaAgent.buildPrompt cfgEmptyCtx { prompt := "p" }
    ∧ OllamaAgent.buildPrompt cfgEmptyCtx { prompt := "p", context := some "EXTRA" } =
        "User: p\n\n" :=
  ⟨rfl, rfl⟩

/-- Claim C7 amended: the hosted provider inserts a truthy extra context as
its own system unit between the profile fragments' unit and the final user
prompt, and its user prompt is always the final unit; the local-server
provider drops the extra context (its prompt is unchanged by it). -/
theorem c7_extra_context_placement (cfg : AgentConfig) (prompt c : String)
    (opts : Option RequestOptions) (req : AgentRequest) :
    (c ≠ "" →
      OpenAIAgent.buildMessages cfg { prompt := prompt, context := some c, options := opts } =
        [{ role := ChatRole.system,
           content := String.intercalate "\n" (cfg.contexts.map (fun x => x.context)) },
         { role := ChatRole.system, content := c },
         { role := ChatRole.user, content := prompt }])
    ∧ (OpenAIAgent.buildMessages cfg req).getLast? =
        some { role := ChatRole.user, content := req.prompt }
    ∧ OllamaAgent.buildPrompt cfg req =
        OllamaAgent.buildPrompt cfg { prompt := req.prompt, context := none,
                                      options := req.options } := by
  refine ⟨?_, ?_, rfl⟩
  · intro hc
    simp [OpenAIAgent.buildMessages, hc]
  · rcases hc : req.context with _ | c2
    · simp [OpenAIAgent.buildMessages, hc]
    · by_cases h : c2 = "" <;> simp [OpenAIAgent.buildMessages, hc, h]

/-- Witness for the amended C7 at a concrete request carrying extra
context. -/
theorem c7_extra_context_placement_witness :
    OpenAIAgent.buildMessages cfgScenario
        { prompt := "Say hi", context := some "EXTRA" } =
      [{ role := ChatRole.system,
         content := String.intercalate "\n" (cfgScenario.contexts.map (fun x => x.context)) },
       { role := ChatRole.system, content := "EXTRA" },
       { role := ChatRole.user, content := "Say hi" }]
    ∧ (OpenAIAgent.buildMessages cfgScenario
        { prompt := "Say hi", context := some "EXTRA" }).getLast? =
      some { role := ChatRole.user, content := "Say hi" }
    ∧ OllamaAgent.buildPrompt cfgScenario { prompt := "Say hi", context := some "EXTRA" } =
      OllamaAgent.buildPrompt cfgScenario { prompt := "Say hi", context := none,
                                            options := none } := by
  have h := c7_extra_context_placement cfgScenario "Say hi" "EXTRA" none
    { prompt := "Say hi", context := some "EXTRA" }
  exact ⟨h.1 (by decide), h.2.1, h.2.2⟩

/-! ### Claim C8: the shape of every returned InvocationResult -/

/-- Side condition on an OpenAI outcome: any thrown Error carries a
non-empty message (fetch and JSON-parse rejections in practice do). -/
def OpenAIOutcome.errorsNonempty : OpenAIOutcome → Prop
  | OpenAIOutcome.fetchThrown (some m) => m ≠ ""
  | OpenAIOutcome.jsonThrown (some m) => m ≠ ""
  | _ => True

/-- Side condition on an Ollama outcome: any thrown Error carries a
non-empty message. -/
def OllamaOutcome.errorsNonempty : OllamaOutcome → Prop
  | OllamaOutcome.fetchThrown (some m) => m ≠ ""
  | OllamaOutcome.jsonThrown (some m) => m ≠ ""
  | _ => True

/-- Helper: appending to a non-empty string is non-empty. -/
lemma append_ne_empty (a b : String) (h : a ≠ "") : a ++ b ≠ "" := by
  intro hc
  apply h
  have h2 := congrArg String.data hc
  rw [String.data_append] at h2
  have h3 : a.data = [] := (List.append_eq_nil.mp h2).1
  exact String.ext h3

/-- Helper: the message of a validation failure is never empty. -/
lemma validateRequest_msg_ne_empty (apiKey : String) (req : AgentRequest) (m : String)
    (h : OpenAIAgent.validateRequest apiKey req = some m) : m ≠ "" := by
  by_cases h1 : req.prompt = ""
  · simp [OpenAIAgent.validateRequest, h1] at h
    subst h
    decide
  · by_cases h2 : apiKey = ""
    · simp [OpenAIAgent.validateRequest, h1, h2] at h
      subst h
      decide
    · simp [OpenAIAgent.validateRequest, h1, h2] at h

/-- Claim C8 counterexample: a local-server success whose parsed body lacks
the response field yields success = true with an absent (undefined)
response text — a success without response text, which the claim rules
out. -/
theorem c8_counterexample :
    (OllamaAgent.process cfgScenario { prompt := "Say hi" } (OllamaOutcome.ok none) 4
        BaseAgent.initState).result.success = true
    ∧ (OllamaAgent.process cfgScenario { prompt := "Say hi" } (OllamaOutcome.ok none) 4
        BaseAgent.initState).result.response = none :=
  ⟨rfl, rfl⟩

/-- Claim C8 amended: over outcomes whose thrown errors carry non-empty
messages, every result is either a success with a null error — with the
hosted provider additionally guaranteeing a present response text, while
the local-server provider may return success with an absent response — or
a failure with empty response text and a non-empty error message. -/
theorem c8_result_dichotomy (cfg : AgentConfig) (apiKey : String) (req : AgentRequest)
    (o : OpenAIOutcome) (elapsed : Nat) (s : AgentState) (cfg2 : AgentConfig)
    (req2 : AgentRequest) (o2 : OllamaOutcome) (elapsed2 : Nat) (s2 : AgentState) :
    (OpenAIOutcome.errorsNonempty o →
      (((OpenAIAgent.process cfg apiKey req o elapsed s).result.success = true
          ∧ (∃ t, (OpenAIAgent.process cfg apiKey req o elapsed s).result.response = some t)
          ∧ (OpenAIAgent.process cfg apiKey req o elapsed s).result.error = none)
        ∨ ((OpenAIAgent.process cfg apiKey req o elapsed s).result.success = false
          ∧ (OpenAIAgent.process cfg apiKey req o elapsed s).result.response = some ""
          ∧ ∃ m, (OpenAIAgent.process cfg apiKey req o elapsed s).result.error = some m
              ∧ m ≠ "")))
    ∧ (OllamaOutcome.errorsNonempty o2 →
      (((OllamaAgent.process cfg2 req2 o2 elapsed2 s2).result.success = true
          ∧ (OllamaAgent.process cfg2 req2 o2 elapsed2 s2).result.error = none)
        ∨ ((OllamaAgent.process cfg2 req2 o2 elapsed2 s2).result.success = false
          ∧ (OllamaAgent.process cfg2 req2 o2 elapsed2 s2).result.response = some ""
          ∧ ∃ m, (OllamaAgent.process cfg2 req2 o2 elapsed2 s2).result.error = some m
              ∧ m ≠ ""))) := by
  constructor
  · intro hne
    rcases hv : OpenAIAgent.validateRequest apiKey req with _ | m
    · cases o with
      | fetchThrown msg =>
        cases msg with
        | none =>
          right
          simp [OpenAIAgent.process, hv, failureResponse, errMsgOf]
        | some m =>
          right
          simp only [OpenAIOutcome.errorsNonempty] at hne
          simp [OpenAIAgent.process, hv, failureResponse, errMsgOf, hne]
      | httpError st =>
        right
        simp [OpenAIAgent.process, hv, failureResponse]
        exact append_ne_empty "OpenAI API error: " st (by decide)
      | jsonThrown msg =>
        cases msg with
        | none =>
          right
          simp [OpenAIAgent.process, hv, failureResponse, errMsgOf]
        | some m =>
          right
          simp only [OpenAIOutcome.errorsNonempty] at hne
          simp [OpenAIAgent.process, hv, failureResponse, errMsgOf, hne]
      | ok content =>
        left
        simp [OpenAIAgent.process, hv]
    · right
      have hm := validateRequest_msg_ne_empty apiKey req m hv
      simp [OpenAIAgent.process, hv, failureResponse, hm]
  · intro hne
    cases o2 with
    | fetchThrown msg =>
      cases msg with
      | none =>
        right
        simp [OllamaAgent.process, failureResponse, errMsgOf]
      | some m =>
        right
        simp only [OllamaOutcome.errorsNonempty] at hne
        simp [OllamaAgent.process, failureResponse, errMsgOf, hne]
    | httpError st =>
      right
      simp [OllamaAgent.process, failureResponse]
      exact append_ne_empty "Ollama API error: " st (by decide)
    | jsonThrown msg =>
      cases msg with
      | none =>
        right
        simp [OllamaAgent.process, failureResponse, errMsgOf]
      | some m =>
        right
        simp only [OllamaOutcome.errorsNonempty] at hne
        simp [OllamaAgent.process, failureResponse, errMsgOf, hne]
    | ok resp =>
      left
      simp [OllamaAgent.process]

/-- Witness for the amended C8 at concrete failing outcomes. -/
theorem c8_result_dichotomy_witness :
    (((OpenAIAgent.process cfgScenario "sk-test" { prompt := "Say hi" }
          (OpenAIOutcome.httpError "Bad Gateway") 4 BaseAgent.initState).result.success = true
        ∧ (∃ t, (OpenAIAgent.process cfgScenario "sk-test" { prompt := "Say hi" }
            (OpenAIOutcome.httpError "Bad Gateway") 4 BaseAgent.initState).result.response
              = some t)
        ∧ (OpenAIAgent.process cfgScenario "sk-test" { prompt := "Say hi" }
            (OpenAIOutcome.httpError "Bad Gateway") 4 BaseAgent.initState).result.error = none)
      ∨ ((OpenAIAgent.process cfgScenario "sk-test" { prompt := "Say hi" }
            (OpenAIOutcome.httpError "Bad Gateway") 4 BaseAgent.initState).result.success = false
        ∧ (OpenAIAgent.process cfgScenario "sk-test" { prompt := "Say hi" }
            (OpenAIOutcome.httpError "Bad Gateway") 4 BaseAgent.initState).result.response
              = some ""
        ∧ ∃ m, (OpenAIAgent.process cfgScenario "sk-test" { prompt := "Say hi" }
            (OpenAIOutcome.httpError "Bad Gateway") 4 BaseAgent.initState).result.error = some m
            ∧ m ≠ ""))
    ∧ (((OllamaAgent.process cfgScenario { prompt := "Say hi" }
          (OllamaOutcome.fetchThrown (some "refused")) 4 BaseAgent.initState).result.success
            = true
        ∧ (OllamaAgent.process cfgScenario { prompt := "Say hi" }
            (OllamaOutcome.fetchThrown (some "refused")) 4 BaseAgent.initState).result.error
              = none)
      ∨ ((OllamaAgent.process cfgScenario { prompt := "Say hi" }
            (OllamaOutcome.fetchThrown (some "refused")) 4 BaseAgent.initState).result.success
              = false
        ∧ (OllamaAgent.process cfgScenario { prompt := "Say hi" }
            (OllamaOutcome.fetchThrown (some "refused")) 4 BaseAgent.initState).result.response
              = some ""
        ∧ ∃ m, (OllamaAgent.process cfgScenario { prompt := "Say hi" }
            (OllamaOutcome.fetchThrown (some "refused")) 4 BaseAgent.initState).result.error
              = some m ∧ m ≠ "")) := by
  have h := c8_result_dichotomy cfgScenario "sk-test" { prompt := "Say hi" }
    (OpenAIOutcome.httpError "Bad Gateway") 4 BaseAgent.initState cfgScenario
    { prompt := "Say hi" } (OllamaOutcome.fetchThrown (some "refused")) 4 BaseAgent.initState
  exact ⟨h.1 trivial, h.2 (by simp only [OllamaOutcome.errorsNonempty]; decide)⟩

/-! ### Claim C9: the local-server prompt string and happy path -/

/-- Claim C9 counterexample: with no context fragments and prompt Say hi,
the built prompt is the claimed concatenation followed by an extra trailing
blank line, not the claimed concatenation itself. -/
theorem c9_counterexample :
    OllamaAgent.buildPrompt cfgEmptyCtx { prompt := "Say hi" } = "User: Say hi\n\n"
    ∧ "User: Say hi\n\n" ≠ "User: Say hi" :=
  ⟨rfl, by decide⟩

/-- Claim C9 amended: the local-server prompt is the active fragments in
ascending priority order, each followed by a blank line, then the literal
"User: " and the request's prompt followed by one trailing blank line; a
mocked body with response Hi there yields a successful envelope carrying
exactly that text, and the sent prompt for the spec's scenario profile
starts with the active fragment and a blank line before "User: Say hi". -/
theorem c9_prompt_assembly (cfg : AgentConfig) (req : AgentRequest) (elapsed : Nat)
    (s : AgentState) :
    OllamaAgent.buildPrompt cfg req =
      String.join ((sortedActive cfg.contexts).map (fun c => c.context ++ "\n\n"))
        ++ ("User: " ++ req.prompt ++ "\n\n")
    ∧ (OllamaAgent.process cfg req (OllamaOutcome.ok (some "Hi there")) elapsed s).result =
        { success := true, response := some "Hi there", processingTime := elapsed,
          error := none }
    ∧ (OllamaAgent.process cfg req (OllamaOutcome.ok (some "Hi there")) elapsed s).sentPrompt =
        some (OllamaAgent.buildPrompt cfg req)
    ∧ OllamaAgent.buildPrompt cfgScenario { prompt := "Say hi" } =
        "You are a helpful assistant\n\nUser: Say hi\n\n" :=
  ⟨rfl, rfl, rfl, rfl⟩

/-! ### Claim C10: the factory round-trip and unknown tags -/

/-- Claim C10 counterexample: the factory with tag ollama accepts a profile
whose provider field is openai and getConfig() then reports provider openai,
not ollama — the tag does not force the returned config's provider. -/
theorem c10_counterexample :
    AgentFactory.createAgent "ollama" cfgScenario =
      Except.ok { kind := AgentKind.ollama, config := cfgScenario }
    ∧ (BaseAgent.getConfig { kind := AgentKind.ollama, config := cfgScenario }).model.provider
        = "openai" :=
  ⟨rfl, rfl⟩

/-- Claim C10 amended: tag ollama yields an OllamaAgent whose getConfig()
returns the given profile unchanged (so its provider field is whatever the
profile carried), and any tag outside the registered mapping produces the
error naming that unsupported tag. -/
theorem c10_factory (cfg : AgentConfig) (tag : String) :
    AgentFactory.createAgent "ollama" cfg =
      Except.ok { kind := AgentKind.ollama, config := cfg }
    ∧ BaseAgent.getConfig { kind := AgentKind.ollama, config := cfg } = cfg
    ∧ (tag ≠ "openai" → tag ≠ "ollama" →
        AgentFactory.createAgent tag cfg =
          Except.error ("Unsupported agent type: " ++ tag)) := by
  refine ⟨rfl, rfl, ?_⟩
  intro h1 h2
  simp [AgentFactory.createAgent, h1, h2]

/-- Witness for the amended C10 at an unregistered tag. -/
theorem c10_factory_witness :
    AgentFactory.createAgent "ollama" cfgScenario =
      Except.ok { kind := AgentKind.ollama, config := cfgScenario }
    ∧ BaseAgent.getConfig { kind := AgentKind.ollama, config := cfgScenario } = cfgScenario
    ∧ AgentFactory.createAgent "mistral" cfgScenario =
        Except.error ("Unsupported agent type: " ++ "mistral") := by
  have h := c10_factory cfgScenario "mistral"
  exact ⟨h.1, h.2.1, h.2.2 (by decide) (by decide)⟩
